import Mathlib

/-!
# Verification of the historical IPO analysis and scoring engine

Shallow embedding of `python-api/services/historical_analysis_service.py`
(class `HistoricalAnalysisService`) over exact rational arithmetic, together
with proofs about the similarity matcher, the percentile/benchmark
calculators, the component scorers, the fallback policy and the score
composer.

Modelling conventions:
* Python floats are modelled as `ℚ` (exact arithmetic; no floating rounding).
* The database is modelled as a `Corpus` value holding the result sets of the
  SQL queries the service issues; an unreachable store is `available = false`
  and yields empty result sets, exactly as the `if not pool` guards do.
* `statistics.median` on an empty list raises `StatisticsError`; this is the
  one uncaught exception site reachable in the pipeline
  (`_predict_performance_from_history`), modelled with `Except`.
* `statistics.stdev` needs a square root, which `ℚ` lacks; all functions are
  parameterised by an `Oracle` providing an abstract `sqrtQ` (and the string
  formatters used only inside the free-text analysis).  No verified property
  depends on the value of a standard deviation on ≥ 2 samples, or on the
  formatted text.
* The `last_updated` timestamp (wall-clock time) is omitted from the result.
-/

/-- Abstract operations the service uses whose exact values no claim depends
on: `sqrtQ` stands for `math.sqrt` inside `statistics.stdev`, and the three
formatters stand for the `%.1f` / `%.2f` / `%.1%` f-string conversions used
only when building the free-text analysis. -/
structure Oracle where
  sqrtQ : ℚ → ℚ
  fmt1 : ℚ → String
  fmt2 : ℚ → String
  fmtPct : ℚ → String

/-- A fixed dummy oracle used to instantiate witnesses. -/
def defaultOracle : Oracle :=
  { sqrtQ := fun _ => 0, fmt1 := fun _ => "", fmt2 := fun _ => "", fmtPct := fun _ => "" }

/-- Python's binary `min` (returns the first argument on ties), written with
an explicit comparison so that it evaluates by kernel reduction. -/
def pyMin (a b : ℚ) : ℚ := if a ≤ b then a else b

/-- Python's binary `max` (returns the first argument on ties). -/
def pyMax (a b : ℚ) : ℚ := if b ≤ a then a else b

/-- Python's `abs`. -/
def pyAbs (q : ℚ) : ℚ := if q < 0 then -q else q

/-- `statistics.mean` (callers guard non-emptiness; division by zero in `ℚ`
yields 0 on the empty list, a branch the embedded callers never reach). -/
def meanQ (l : List ℚ) : ℚ := l.sum / l.length

/-- The sample variance `Σ (x - mean)² / (n - 1)`; `statistics.stdev` is
`Oracle.sqrtQ` of this. -/
def sampleVariance (l : List ℚ) : ℚ :=
  (l.map (fun x => (x - meanQ l) ^ 2)).sum / ((l.length : ℚ) - 1)

/-- `statistics.stdev`, via the abstract square root. -/
def stdevQ (o : Oracle) (l : List ℚ) : ℚ := o.sqrtQ (sampleVariance l)

/-- `statistics.median`: sort ascending, take the middle element (odd length)
or the average of the two middle elements (even length). -/
def medianQ (l : List ℚ) : ℚ :=
  let s := l.insertionSort (· ≤ ·)
  let n := s.length
  if n % 2 = 1 then s.getD (n / 2) 0
  else (s.getD (n / 2 - 1) 0 + s.getD (n / 2) 0) / 2

/-- `statistics.median` raising `StatisticsError` on the empty list, as used
by `_predict_performance_from_history` (where the call is unguarded). -/
def medianOpt (l : List ℚ) : Option ℚ :=
  if l.isEmpty then none else some (medianQ l)

/-- `HistoricalAnalysisService._safe_median`: default on the empty list,
otherwise the median (the single-element and `StatisticsError` branches of
the source coincide with `medianQ` on non-empty lists). -/
def safeMedian (values : List ℚ) (default : ℚ) : ℚ :=
  if values.isEmpty then default else medianQ values

/-- `HistoricalAnalysisService._calculate_percentile_rank`: 50 on the empty
dataset, else the fraction of elements strictly below `value`, times 100. -/
def calculatePercentileRank (value : ℚ) (data : List ℚ) : ℚ :=
  if data.isEmpty then 50
  else
    let sorted_data := data.insertionSort (· ≤ ·)
    let rank := sorted_data.countP (fun x => decide (x < value))
    ((rank : ℚ) / (sorted_data.length : ℚ)) * 100

/-- Python's `round` (banker's rounding, half to even) on a rational. -/
def pyRound (q : ℚ) : ℤ :=
  if q - ⌊q⌋ < 1 / 2 then ⌊q⌋
  else if 1 / 2 < q - ⌊q⌋ then ⌊q⌋ + 1
  else if ⌊q⌋ % 2 = 0 then ⌊q⌋ else ⌊q⌋ + 1

/-- `round(x, 1)`. -/
def round1 (q : ℚ) : ℚ := (pyRound (q * 10) : ℚ) / 10

/-- `round(x, 3)`. -/
def round3 (q : ℚ) : ℚ := (pyRound (q * 1000) : ℚ) / 1000

/-- The normalized per-company feature record handed to the core (§ keys read
by the service via `current_ipo.get(...)`).  Numeric fields default to 0 when
absent, string fields to `""`, and the two error fields are modelled by their
truthiness. -/
structure CurrentIpo where
  implied_market_cap : ℚ := 0
  revenue_growth_yoy : ℚ := 0
  gross_margin : ℚ := 0
  sector : String := ""
  industry : String := ""
  trend_score : ℚ := 0
  trend_average_interest : ℚ := 0
  trend_recent_interest : ℚ := 0
  trend_data_available : Bool := false
  trend_error : Bool := false
  sentiment_score : ℚ := 0
  news_total_articles : ℤ := 0
  news_data_available : Bool := false
  news_error : Bool := false
  deriving DecidableEq

/-- One row returned by the similarity SQL query over `historical_ipos`
(the selected columns; nullable columns are `Option`). -/
structure HistoricalRow where
  ticker : String := ""
  name : String := ""
  sector : Option String := none
  industry : Option String := none
  revenue_growth_yoy : Option ℚ := none
  gross_margin : Option ℚ := none
  operating_margin : Option ℚ := none
  market_cap_at_ipo : Option ℚ := none
  first_day_return : Option ℚ := none
  first_week_return : Option ℚ := none
  first_month_return : Option ℚ := none
  market_cap_category : Option String := none
  growth_stage : Option String := none
  deriving DecidableEq

/-- The `SimilarityMatch` dataclass. -/
structure SimilarityMatch where
  ticker : String
  name : String
  similarity_score : ℚ
  matching_factors : List String
  revenue_growth : Option ℚ := none
  gross_margin : Option ℚ := none
  market_cap : Option ℚ := none
  first_day_return : Option ℚ := none
  first_week_return : Option ℚ := none
  first_month_return : Option ℚ := none
  deriving DecidableEq

/-- The `HistoricalBenchmark` dataclass. -/
structure HistoricalBenchmark where
  metric_name : String
  current_value : ℚ
  historical_median : ℚ
  historical_mean : ℚ
  historical_std : ℚ
  percentile_rank : ℚ
  similar_ipos_median : ℚ
  similar_ipos_mean : ℚ
  similar_ipos_std : ℚ
  similar_ipos_percentile : ℚ
  deriving DecidableEq

/-- The market-cap categorisation in `_find_similar_historical_ipos`
(`None` when `implied_market_cap` is falsy, i.e. 0). -/
def marketCapCategory (market_cap : ℚ) : Option String :=
  if market_cap ≠ 0 then
    let market_cap_billions := market_cap / 1000000000
    some (if market_cap_billions < 3 / 10 then "micro"
          else if market_cap_billions < 2 then "small"
          else if market_cap_billions < 10 then "mid"
          else if market_cap_billions < 200 then "large"
          else "mega")
  else none

/-- The revenue-growth factor test in `_find_similar_historical_ipos`: both
values must be truthy (non-null and nonzero) and the relative difference
below 20%. -/
def revenueGrowthFactorMatches (cur : CurrentIpo) (row : HistoricalRow) : Bool :=
  match row.revenue_growth_yoy with
  | none => false
  | some g =>
      decide (g ≠ 0) && decide (cur.revenue_growth_yoy ≠ 0) &&
        decide (pyAbs (g - cur.revenue_growth_yoy) / pyMax (pyAbs cur.revenue_growth_yoy) 1 < 1 / 5)

/-- The cumulative similarity score of one candidate row (sum of the fixed
factor weights actually awarded by the source). -/
def candidateScore (cur : CurrentIpo) (row : HistoricalRow) : ℚ :=
  (if row.market_cap_category = marketCapCategory cur.implied_market_cap then (3 : ℚ) / 10 else 0)
    + (if row.sector = some cur.sector then (2 : ℚ) / 10 else 0)
    + (if row.industry = some cur.industry then (2 : ℚ) / 10 else 0)
    + (if revenueGrowthFactorMatches cur row then (3 : ℚ) / 10 else 0)

/-- The ordered `factors` list accumulated alongside the score. -/
def candidateFactors (cur : CurrentIpo) (row : HistoricalRow) : List String :=
  (if row.market_cap_category = marketCapCategory cur.implied_market_cap then ["market_cap"] else [])
    ++ (if row.sector = some cur.sector then ["sector"] else [])
    ++ (if row.industry = some cur.industry then ["industry"] else [])
    ++ (if revenueGrowthFactorMatches cur row then ["revenue_growth"] else [])

/-- The `SimilarityMatch(...)` constructor call in
`_find_similar_historical_ipos`.  Note that the source passes
`revenue_growth`, `gross_margin` and the three returns but does NOT pass
`market_cap`, so that field keeps its dataclass default `None` even though
the query selects `market_cap_at_ipo`. -/
def mkMatch (cur : CurrentIpo) (row : HistoricalRow) : SimilarityMatch :=
  { ticker := row.ticker
    name := row.name
    similarity_score := candidateScore cur row
    matching_factors := candidateFactors cur row
    revenue_growth := row.revenue_growth_yoy
    gross_margin := row.gross_margin
    first_day_return := row.first_day_return
    first_week_return := row.first_week_return
    first_month_return := row.first_month_return }

/-- Descending order on similarity score, as produced by
`similar_matches.sort(key=..., reverse=True)` (a stable sort). -/
def simGE (a b : SimilarityMatch) : Prop :=
  b.similarity_score ≤ a.similarity_score

instance : DecidableRel simGE := fun a b =>
  inferInstanceAs (Decidable (b.similarity_score ≤ a.similarity_score))

instance : IsTotal SimilarityMatch simGE :=
  ⟨fun a b => le_total b.similarity_score a.similarity_score⟩

instance : IsTrans SimilarityMatch simGE :=
  ⟨fun _ _ _ hab hbc => le_trans hbc hab⟩

/-- `_find_similar_historical_ipos`, given the rows produced by its SQL
query: score every candidate, retain those with score ≥ 0.3, sort descending
by score (stably), return the top 10. -/
def findSimilarHistoricalIpos (cur : CurrentIpo) (rows : List HistoricalRow) :
    List SimilarityMatch :=
  ((((rows.map (mkMatch cur)).filter
      (fun m => decide ((3 : ℚ) / 10 ≤ m.similarity_score))).insertionSort simGE).take 10)

/-- The dictionary returned by `_analyze_search_trends_historically`. -/
structure TrendAnalysis where
  current_trend_score : ℚ
  effective_trend_score : ℚ
  historical_percentile : ℚ
  similar_ipos_percentile : ℚ
  effective_percentile : ℚ
  trend_strength : String
  trend_impact : String
  historical_median : ℚ
  similar_ipos_median : ℚ
  trend_volatility : ℚ
  data_available : Bool
  used_historical_fallback : Bool
  fallback_source : String
  data_confidence : ℚ
  historical_sample_size : ℕ
  similar_sample_size : ℕ
  deriving DecidableEq

/-- The dictionary returned by `_analyze_sentiment_historically`. -/
structure SentimentAnalysis where
  current_sentiment : ℚ
  effective_sentiment : ℚ
  total_articles : ℤ
  historical_percentile : ℚ
  similar_ipos_percentile : ℚ
  effective_percentile : ℚ
  sentiment_strength : String
  historical_median : ℚ
  similar_ipos_median : ℚ
  data_available : Bool
  used_historical_fallback : Bool
  fallback_source : String
  data_confidence : ℚ
  historical_sample_size : ℕ
  similar_sample_size : ℕ
  deriving DecidableEq

/-- The dictionary returned by `_predict_performance_from_history`. -/
structure PerformancePredictions where
  predicted_first_day_return : ℚ
  predicted_first_week_return : ℚ
  predicted_first_month_return : ℚ
  performance_volatility : ℚ
  historical_sample_size : ℕ
  risk_level : String
  deriving DecidableEq

/-- The `trend_strength` bucket assigned from the historical percentile in
`_analyze_search_trends_historically`. -/
def trendStrengthOf (trend_percentile : ℚ) : String :=
  if trend_percentile ≥ 90 then "Exceptional"
  else if trend_percentile ≥ 75 then "Strong"
  else if trend_percentile ≥ 50 then "Moderate"
  else "Weak"

/-- The `trend_impact` label assigned alongside `trend_strength`. -/
def trendImpactOf (trend_percentile : ℚ) : String :=
  if trend_percentile ≥ 90 then "Very High"
  else if trend_percentile ≥ 75 then "High"
  else if trend_percentile ≥ 50 then "Medium"
  else "Low"

/-- `_analyze_search_trends_historically`, given the result sets of its two
queries over `historical_search_trends` (full pool and peer-ticker pool). -/
def analyzeSearchTrends (o : Oracle) (cur : CurrentIpo)
    (histScores simScores : List ℚ) : TrendAnalysis :=
  let current_trend_score := cur.trend_score
  let average_interest := cur.trend_average_interest
  let recent_interest := cur.trend_recent_interest
  let live_data_available : Bool :=
    cur.trend_data_available &&
      (decide (0 < average_interest + recent_interest) || decide (0 < current_trend_score))
  let historical_trend_scores := if histScores.isEmpty then [(50 : ℚ)] else histScores
  let similar_trend_scores :=
    if simScores.isEmpty then historical_trend_scores else simScores
  let fb : Bool × String × ℚ :=
    if !live_data_available || cur.trend_error then
      if !similar_trend_scores.isEmpty then
        (true, "similar", safeMedian similar_trend_scores 55)
      else
        (true, "historical", safeMedian historical_trend_scores 55)
    else if current_trend_score ≤ 0 ∧ recent_interest ≤ 0 ∧ average_interest ≤ 0 then
      (true, "similar", safeMedian similar_trend_scores 55)
    else
      (false, "live", current_trend_score)
  let fallback_used := fb.1
  let fallback_source := fb.2.1
  let effective_trend_score := fb.2.2
  let trend_percentile := calculatePercentileRank effective_trend_score historical_trend_scores
  let similar_trend_percentile :=
    calculatePercentileRank effective_trend_score similar_trend_scores
  let data_confidence : ℚ :=
    if !fallback_used then 1
    else if fallback_source = "similar" then 3 / 4
    else 3 / 5
  { current_trend_score := current_trend_score
    effective_trend_score := effective_trend_score
    historical_percentile := trend_percentile
    similar_ipos_percentile := similar_trend_percentile
    effective_percentile := similar_trend_percentile
    trend_strength := trendStrengthOf trend_percentile
    trend_impact := trendImpactOf trend_percentile
    historical_median := safeMedian historical_trend_scores 50
    similar_ipos_median := safeMedian similar_trend_scores 50
    trend_volatility :=
      if 1 < historical_trend_scores.length then stdevQ o historical_trend_scores else 0
    data_available := live_data_available && !fallback_used
    used_historical_fallback := fallback_used
    fallback_source := fallback_source
    data_confidence := data_confidence
    historical_sample_size := historical_trend_scores.length
    similar_sample_size := similar_trend_scores.length }

/-- The `sentiment_strength` bucket assigned from the effective sentiment in
`_analyze_sentiment_historically`. -/
def sentimentStrengthOf (effective_sentiment : ℚ) : String :=
  if effective_sentiment > 2 / 10 then "Extremely Positive"
  else if effective_sentiment > 1 / 10 then "Very Positive"
  else if effective_sentiment > 1 / 50 then "Moderately Positive"
  else if effective_sentiment < -(1 / 20) then "Negative"
  else "Neutral/Negative"

/-- `_analyze_sentiment_historically`, given the result sets of its two
queries over `historical_news_sentiment`. -/
def analyzeSentimentHistorically (cur : CurrentIpo)
    (histScores simScores : List ℚ) : SentimentAnalysis :=
  let current_sentiment := cur.sentiment_score
  let total_articles := cur.news_total_articles
  let live_data_available : Bool :=
    cur.news_data_available && decide (0 < total_articles)
  let historical_sentiment_scores := if histScores.isEmpty then [(0 : ℚ)] else histScores
  let similar_sentiment_scores :=
    if simScores.isEmpty then historical_sentiment_scores else simScores
  let fb : Bool × String × ℚ :=
    if !live_data_available || cur.news_error then
      if !similar_sentiment_scores.isEmpty then
        (true, "similar", safeMedian similar_sentiment_scores (1 / 20))
      else
        (true, "historical", safeMedian historical_sentiment_scores (1 / 20))
    else if total_articles = 0 then
      (true, "similar", safeMedian similar_sentiment_scores (1 / 20))
    else
      (false, "live", current_sentiment)
  let fallback_used := fb.1
  let fallback_source := fb.2.1
  let effective_sentiment := fb.2.2
  let sentiment_percentile :=
    calculatePercentileRank effective_sentiment historical_sentiment_scores
  let similar_sentiment_percentile :=
    calculatePercentileRank effective_sentiment similar_sentiment_scores
  let data_confidence : ℚ :=
    if !fallback_used then 1
    else if fallback_source = "similar" then 7 / 10
    else 11 / 20
  { current_sentiment := current_sentiment
    effective_sentiment := effective_sentiment
    total_articles := total_articles
    historical_percentile := sentiment_percentile
    similar_ipos_percentile := similar_sentiment_percentile
    effective_percentile := similar_sentiment_percentile
    sentiment_strength := sentimentStrengthOf effective_sentiment
    historical_median := safeMedian historical_sentiment_scores 0
    similar_ipos_median := safeMedian similar_sentiment_scores 0
    data_available := live_data_available && !fallback_used
    used_historical_fallback := fallback_used
    fallback_source := fallback_source
    data_confidence := data_confidence
    historical_sample_size := historical_sentiment_scores.length
    similar_sample_size := similar_sentiment_scores.length }

/-- `_predict_performance_from_history`, given the assembled return pools
(historical rows plus the matched peers' copied returns).  The unguarded
`statistics.median` calls raise `StatisticsError` on an empty pool; the first
such raise propagates to the caller, modelled as `Except.error`. -/
def predictPerformance (o : Oracle)
    (first_day_returns first_week_returns first_month_returns : List ℚ) :
    Except String PerformancePredictions :=
  match medianOpt first_day_returns, medianOpt first_week_returns,
      medianOpt first_month_returns with
  | some d, some w, some m =>
      let performance_volatility :=
        if 1 < first_day_returns.length then stdevQ o first_day_returns else 0
      .ok { predicted_first_day_return := d
            predicted_first_week_return := w
            predicted_first_month_return := m
            performance_volatility := performance_volatility
            historical_sample_size := first_day_returns.length
            risk_level :=
              if performance_volatility > 3 / 10 then "High"
              else if performance_volatility > 3 / 20 then "Medium"
              else "Low" }
  | _, _, _ => .error "StatisticsError"

/-- One benchmark block of `_calculate_historical_benchmarks` (the three
blocks for revenue growth, gross margin and market cap are textually
identical up to the pools and names). -/
def mkBenchmark (o : Oracle) (metric_name : String) (current_value : ℚ)
    (histPool simPool : List ℚ) : HistoricalBenchmark :=
  { metric_name := metric_name
    current_value := current_value
    historical_median := if histPool.isEmpty then 0 else medianQ histPool
    historical_mean := if histPool.isEmpty then 0 else meanQ histPool
    historical_std := if 1 < histPool.length then stdevQ o histPool else 0
    percentile_rank := calculatePercentileRank current_value histPool
    similar_ipos_median := if simPool.isEmpty then 0 else medianQ simPool
    similar_ipos_mean := if simPool.isEmpty then 0 else meanQ simPool
    similar_ipos_std := if 1 < simPool.length then stdevQ o simPool else 0
    similar_ipos_percentile := calculatePercentileRank current_value simPool }

/-- `_calculate_financial_score`: mean over benchmarks of
`0.7 * peer percentile + 0.3 * full percentile`; 50 without benchmarks. -/
def calculateFinancialScore (benchmarks : List HistoricalBenchmark) : ℚ :=
  if benchmarks.isEmpty then 50
  else
    meanQ (benchmarks.map fun b =>
      b.similar_ipos_percentile * (7 / 10) + b.percentile_rank * (3 / 10))

/-- The strength-multiplier dictionary of `_calculate_trend_score`
(default 1.0 for an unknown key). -/
def trendStrengthMultiplier (strength : String) : ℚ :=
  if strength = "Exceptional" then 12 / 10
  else if strength = "Strong" then 11 / 10
  else if strength = "Moderate" then 1
  else if strength = "Weak" then 8 / 10
  else 1

/-- `_calculate_trend_score`. -/
def calculateTrendScore (search_analysis : TrendAnalysis) : ℚ :=
  let percentile := search_analysis.effective_percentile
  let strength_multiplier := trendStrengthMultiplier search_analysis.trend_strength
  let base_score := pyMin 100 (percentile * strength_multiplier)
  let confidence_multiplier :=
    6 / 10 + (4 / 10) * pyMax 0 (pyMin 1 search_analysis.data_confidence)
  let score := base_score * confidence_multiplier
  pyMax 35 (pyMin 100 score)

/-- The strength-multiplier dictionary of `_calculate_sentiment_score`
(default 1.0 for an unknown key). -/
def sentimentStrengthMultiplier (strength : String) : ℚ :=
  if strength = "Extremely Positive" then 12 / 10
  else if strength = "Very Positive" then 11 / 10
  else if strength = "Moderately Positive" then 1
  else if strength = "Neutral/Negative" then 7 / 10
  else if strength = "Negative" then 6 / 10
  else 1

/-- `_calculate_sentiment_score`. -/
def calculateSentimentScore (sentiment_analysis : SentimentAnalysis) : ℚ :=
  let percentile := sentiment_analysis.effective_percentile
  let strength_multiplier := sentimentStrengthMultiplier sentiment_analysis.sentiment_strength
  let base_score := pyMin 100 (percentile * strength_multiplier)
  let confidence_multiplier :=
    6 / 10 + (4 / 10) * pyMax 0 (pyMin 1 sentiment_analysis.data_confidence)
  let score := base_score * confidence_multiplier
  pyMax 30 (pyMin 100 score)

/-- `_calculate_performance_score`: the predicted first-day return mapped to
[0,100], times the volatility multiplier `1.1 - volatility * 0.8 / 0.5` with
volatility clamped to [0, 0.5], capped at 100. -/
def calculatePerformanceScore (performance_predictions : PerformancePredictions) : ℚ :=
  let predicted_return := performance_predictions.predicted_first_day_return
  let return_score := pyMax 0 (pyMin 100 (50 + predicted_return * 100))
  let volatility := pyMax 0 (pyMin (1 / 2) performance_predictions.performance_volatility)
  let multiplier := 11 / 10 - volatility * (8 / 10) / (1 / 2)
  pyMin 100 (return_score * multiplier)

/-- `_calculate_similarity_score`: 30 without peers, else the average peer
similarity times 100 plus a quality bonus `min(20, 5 * count)`, capped at
100. -/
def calculateSimilarityScore (similar_ipos : List SimilarityMatch) : ℚ :=
  if similar_ipos.isEmpty then 30
  else
    pyMin 100 (meanQ (similar_ipos.map (·.similarity_score)) * 100
      + pyMin 20 (5 * (similar_ipos.length : ℚ)))

/-- `_generate_recommendation`. -/
def generateRecommendation (hype_score : ℚ) : String :=
  if hype_score ≥ 85 then "Strong Buy"
  else if hype_score ≥ 70 then "Buy"
  else if hype_score ≥ 50 then "Hold"
  else "Sell"

/-- `_assess_risk_level`. -/
def assessRiskLevel (performance_predictions : PerformancePredictions) : String :=
  if performance_predictions.performance_volatility > 4 / 10 then "High"
  else if performance_predictions.performance_volatility > 2 / 10 then "Medium"
  else "Low"

/-- The five per-component confidence multipliers computed by
`_generate_data_backed_hype_score`. -/
structure ComponentConfidences where
  financial : ℚ
  trend : ℚ
  sentiment : ℚ
  performance : ℚ
  similarity : ℚ
  deriving DecidableEq

/-- The `component_confidences` dictionary. -/
def componentConfidences (benchmarks : List HistoricalBenchmark)
    (search_analysis : TrendAnalysis) (sentiment_analysis : SentimentAnalysis)
    (performance_predictions : PerformancePredictions)
    (similar_ipos : List SimilarityMatch) : ComponentConfidences :=
  { financial := if !benchmarks.isEmpty then 1 else 7 / 10
    trend := pyMax (7 / 20) search_analysis.data_confidence
    sentiment := pyMax (7 / 20) sentiment_analysis.data_confidence
    performance :=
      pyMin 1 (6 / 10 + (8 / 100) * (performance_predictions.historical_sample_size : ℚ))
    similarity := pyMin 1 (55 / 100 + (5 / 100) * (similar_ipos.length : ℚ)) }

/-- A five-component weight vector. -/
structure Weights where
  financial : ℚ
  trend : ℚ
  sentiment : ℚ
  performance : ℚ
  similarity : ℚ
  deriving DecidableEq

/-- The fixed `base_weights` dictionary. -/
def baseWeights : Weights :=
  { financial := 28 / 100, trend := 18 / 100, sentiment := 18 / 100
    performance := 20 / 100, similarity := 16 / 100 }

/-- The `weighted_weights` dictionary: each base weight scaled by the
component confidence floored at 0.25. -/
def scaledWeights (c : ComponentConfidences) : Weights :=
  { financial := baseWeights.financial * pyMax c.financial (1 / 4)
    trend := baseWeights.trend * pyMax c.trend (1 / 4)
    sentiment := baseWeights.sentiment * pyMax c.sentiment (1 / 4)
    performance := baseWeights.performance * pyMax c.performance (1 / 4)
    similarity := baseWeights.similarity * pyMax c.similarity (1 / 4) }

/-- `total_weight = sum(weighted_weights.values())`. -/
def totalScaledWeight (c : ComponentConfidences) : ℚ :=
  (scaledWeights c).financial + (scaledWeights c).trend + (scaledWeights c).sentiment
    + (scaledWeights c).performance + (scaledWeights c).similarity

/-- The renormalized `weights` dictionary (base weights if the scaled total
is zero). -/
def normalizedWeights (c : ComponentConfidences) : Weights :=
  let ww := scaledWeights c
  let total_weight := totalScaledWeight c
  if total_weight = 0 then baseWeights
  else
    { financial := ww.financial / total_weight
      trend := ww.trend / total_weight
      sentiment := ww.sentiment / total_weight
      performance := ww.performance / total_weight
      similarity := ww.similarity / total_weight }

/-- The confidence-weighted `base_hype_score` of
`_generate_data_backed_hype_score`. -/
def baseHypeScoreOf (benchmarks : List HistoricalBenchmark)
    (search_analysis : TrendAnalysis) (sentiment_analysis : SentimentAnalysis)
    (performance_predictions : PerformancePredictions)
    (similar_ipos : List SimilarityMatch) : ℚ :=
  let weights := normalizedWeights
    (componentConfidences benchmarks search_analysis sentiment_analysis
      performance_predictions similar_ipos)
  calculateFinancialScore benchmarks * weights.financial
    + calculateTrendScore search_analysis * weights.trend
    + calculateSentimentScore sentiment_analysis * weights.sentiment
    + calculatePerformanceScore performance_predictions * weights.performance
    + calculateSimilarityScore similar_ipos * weights.similarity

/-- The rounded five component sub-scores of the result payload. -/
structure ComponentScores where
  financial_score : ℚ
  trend_score : ℚ
  sentiment_score : ℚ
  performance_score : ℚ
  similarity_score : ℚ
  deriving DecidableEq

/-- The `historical_context` block of the result payload. -/
structure HistoricalContext where
  similar_ipos_count : ℕ
  benchmarks_analyzed : ℕ
  deriving DecidableEq

/-- The result payload of the core (`hype_score_data`).  The fallback payload
carries no `weight_allocation` key, hence the `Option`.  The `last_updated`
timestamp is omitted (wall-clock). -/
structure HypeScoreResult where
  hype_score : ℚ
  component_scores : ComponentScores
  weight_allocation : Option Weights
  analysis : String
  key_factors : List String
  recommendation : String
  risk_level : String
  historical_context : HistoricalContext
  deriving DecidableEq

/-- `_generate_detailed_analysis` (numeric formatting via the oracle). -/
def generateDetailedAnalysis (o : Oracle) (_cur : CurrentIpo)
    (benchmarks : List HistoricalBenchmark) (search_analysis : TrendAnalysis)
    (sentiment_analysis : SentimentAnalysis)
    (performance_predictions : PerformancePredictions)
    (similar_ipos : List SimilarityMatch) : String :=
  let financial_part : List String :=
    match benchmarks with
    | [] => []
    | b :: bs =>
        let top := bs.foldl
          (fun acc x =>
            if acc.similar_ipos_percentile < x.similar_ipos_percentile then x else acc) b
        ["Financial Analysis: " ++ top.metric_name ++ " ranks in the "
          ++ o.fmt1 top.similar_ipos_percentile
          ++ "th percentile compared to similar historical IPOs, indicating "
          ++ (if top.similar_ipos_percentile > 75 then "strong"
              else if top.similar_ipos_percentile > 50 then "moderate" else "weak")
          ++ " financial positioning."]
  let trend_part : List String :=
    ["Search Interest: Current trend strength is "
      ++ search_analysis.trend_strength.toLower ++ " with "
      ++ o.fmt1 search_analysis.similar_ipos_percentile
      ++ "th percentile ranking among similar historical IPOs, suggesting "
      ++ (if search_analysis.similar_ipos_percentile > 90 then "exceptional"
          else if search_analysis.similar_ipos_percentile > 75 then "strong"
          else "moderate")
      ++ " market interest."]
  let trend_note : List String :=
    if search_analysis.used_historical_fallback then
      ["Live search activity was sparse; leveraged historical peer baselines to avoid penalising the score."]
    else []
  let sentiment_part : List String :=
    ["News Sentiment: " ++ sentiment_analysis.sentiment_strength ++ " sentiment with "
      ++ o.fmt1 sentiment_analysis.similar_ipos_percentile
      ++ "th percentile ranking compared to similar IPOs, indicating "
      ++ (if sentiment_analysis.similar_ipos_percentile > 90 then "very positive"
          else if sentiment_analysis.similar_ipos_percentile > 75 then "positive"
          else "neutral")
      ++ " media coverage."]
  let sentiment_note : List String :=
    if sentiment_analysis.used_historical_fallback then
      ["Current media coverage is thin; sentiment pulled from historical peers to maintain balance."]
    else []
  let performance_part : List String :=
    ["Performance Prediction: Based on " ++ toString similar_ipos.length
      ++ " similar historical IPOs, predicted first-day return of "
      ++ o.fmtPct performance_predictions.predicted_first_day_return ++ "."]
  let context_part : List String :=
    if similar_ipos.isEmpty then []
    else
      ["Historical Context: Found " ++ toString similar_ipos.length
        ++ " similar IPOs with average similarity score of "
        ++ o.fmt2 (meanQ (similar_ipos.map (·.similarity_score)))
        ++ ", providing strong historical precedent for analysis."]
  String.intercalate " "
    (financial_part ++ trend_part ++ trend_note ++ sentiment_part ++ sentiment_note
      ++ performance_part ++ context_part)

/-- `_extract_key_factors` (top 5 factors). -/
def extractKeyFactors (benchmarks : List HistoricalBenchmark)
    (search_analysis : TrendAnalysis) (sentiment_analysis : SentimentAnalysis) :
    List String :=
  let financial_factors := benchmarks.foldr
    (fun b acc =>
      (if b.similar_ipos_percentile > 80 then
          ["Strong " ++ b.metric_name ++ " vs similar IPOs"]
        else if b.similar_ipos_percentile < 30 then
          ["Weak " ++ b.metric_name ++ " vs similar IPOs"]
        else []) ++ acc) []
  let trend_factors :=
    if search_analysis.trend_strength = "Exceptional"
        ∨ search_analysis.trend_strength = "Strong" then
      [search_analysis.trend_strength ++ " search interest"]
    else []
  let sentiment_factors :=
    if 1 < (sentiment_analysis.sentiment_strength.splitOn "Positive").length then
      [sentiment_analysis.sentiment_strength ++ " media sentiment"]
    else []
  (financial_factors ++ trend_factors ++ sentiment_factors).take 5

/-- `_generate_data_backed_hype_score`: component scores, confidence-scaled
weight renormalisation, calibration `base * 1.1 + 12.5`, clamp to
[35, 100]. -/
def generateDataBackedHypeScore (o : Oracle) (cur : CurrentIpo)
    (similar_ipos : List SimilarityMatch) (benchmarks : List HistoricalBenchmark)
    (search_analysis : TrendAnalysis) (sentiment_analysis : SentimentAnalysis)
    (performance_predictions : PerformancePredictions) : HypeScoreResult :=
  let financial_score := calculateFinancialScore benchmarks
  let trend_score := calculateTrendScore search_analysis
  let sentiment_score := calculateSentimentScore sentiment_analysis
  let performance_score := calculatePerformanceScore performance_predictions
  let similarity_score := calculateSimilarityScore similar_ipos
  let weights := normalizedWeights
    (componentConfidences benchmarks search_analysis sentiment_analysis
      performance_predictions similar_ipos)
  let base_hype_score := baseHypeScoreOf benchmarks search_analysis sentiment_analysis
    performance_predictions similar_ipos
  let boosted_hype_score := base_hype_score * (11 / 10) + 25 / 2
  let final_hype_score := pyMax 35 (pyMin 100 boosted_hype_score)
  { hype_score := round1 final_hype_score
    component_scores :=
      { financial_score := round1 financial_score
        trend_score := round1 trend_score
        sentiment_score := round1 sentiment_score
        performance_score := round1 performance_score
        similarity_score := round1 similarity_score }
    weight_allocation := some
      { financial := round3 weights.financial
        trend := round3 weights.trend
        sentiment := round3 weights.sentiment
        performance := round3 weights.performance
        similarity := round3 weights.similarity }
    analysis := generateDetailedAnalysis o cur benchmarks search_analysis
      sentiment_analysis performance_predictions similar_ipos
    key_factors := extractKeyFactors benchmarks search_analysis sentiment_analysis
    recommendation := generateRecommendation final_hype_score
    risk_level := assessRiskLevel performance_predictions
    historical_context :=
      { similar_ipos_count := similar_ipos.length
        benchmarks_analyzed := benchmarks.length } }

/-- `_get_fallback_hype_score` (timestamp omitted). -/
def fallbackHypeScore : HypeScoreResult :=
  { hype_score := 50
    component_scores :=
      { financial_score := 50, trend_score := 50, sentiment_score := 50
        performance_score := 50, similarity_score := 30 }
    weight_allocation := none
    analysis := "Historical analysis unavailable. Using basic scoring methodology."
    key_factors := ["Limited historical data available"]
    recommendation := "Hold"
    risk_level := "High"
    historical_context := { similar_ipos_count := 0, benchmarks_analyzed := 0 } }

/-- The database contents visible to one invocation: the result sets of each
query the service issues.  `available = false` models an unreachable store
(every `if not pool` guard then yields the empty set). -/
structure Corpus where
  available : Bool
  candidates : List HistoricalRow
  growthPool : List ℚ
  marginPool : List ℚ
  marketCapPool : List ℚ
  trendPool : List ℚ
  trendSimilar : List String → List ℚ
  sentimentPool : List ℚ
  sentimentSimilar : List String → List ℚ
  performanceRows : List (ℚ × Option ℚ × Option ℚ)

/-- `_calculate_historical_benchmarks`: empty without a store, else the three
benchmark blocks; peer pools are drawn from the `SimilarityMatch` copies. -/
def calculateHistoricalBenchmarks (o : Oracle) (cur : CurrentIpo)
    (similar_ipos : List SimilarityMatch) (c : Corpus) : List HistoricalBenchmark :=
  if !c.available then []
  else
    [ mkBenchmark o "Revenue Growth YoY" cur.revenue_growth_yoy c.growthPool
        (similar_ipos.filterMap (·.revenue_growth))
    , mkBenchmark o "Gross Margin" cur.gross_margin c.marginPool
        (similar_ipos.filterMap (·.gross_margin))
    , mkBenchmark o "Market Cap" cur.implied_market_cap c.marketCapPool
        (similar_ipos.filterMap (·.market_cap)) ]

/-- `analyze_ipo_hype_score`: run the six pipeline steps; any exception
(reachably: `StatisticsError` from the unguarded medians in step 5) is caught
at this boundary and replaced by the fixed fallback payload. -/
def analyzeIpoHypeScore (o : Oracle) (cur : CurrentIpo) (c : Corpus) : HypeScoreResult :=
  let similar_ipos := findSimilarHistoricalIpos cur (if c.available then c.candidates else [])
  let benchmarks := calculateHistoricalBenchmarks o cur similar_ipos c
  let similar_tickers := (similar_ipos.map (·.ticker)).filter (fun t => !t.isEmpty)
  let search_analysis := analyzeSearchTrends o cur
    (if c.available then c.trendPool else [])
    (if c.available && !similar_tickers.isEmpty then c.trendSimilar similar_tickers else [])
  let sentiment_analysis := analyzeSentimentHistorically cur
    (if c.available then c.sentimentPool else [])
    (if c.available && !similar_tickers.isEmpty then c.sentimentSimilar similar_tickers
      else [])
  let first_day_returns :=
    if c.available then
      c.performanceRows.map (·.1) ++ similar_ipos.filterMap (·.first_day_return)
    else []
  let first_week_returns :=
    if c.available then
      c.performanceRows.filterMap (·.2.1) ++ similar_ipos.filterMap (·.first_week_return)
    else []
  let first_month_returns :=
    if c.available then
      c.performanceRows.filterMap (·.2.2) ++ similar_ipos.filterMap (·.first_month_return)
    else []
  match predictPerformance o first_day_returns first_week_returns first_month_returns with
  | .error _ => fallbackHypeScore
  | .ok performance_predictions =>
      generateDataBackedHypeScore o cur similar_ipos benchmarks search_analysis
        sentiment_analysis performance_predictions

/-- The similarity-score formula as the specification words it (factor-sum
with the revenue-growth rule `|Δ| / max(|current|, 1) < 0.2` and no
truthiness guard on the two growth values).  Stated only for comparison with
`candidateScore`, the formula the source actually computes. -/
def specClaimCandidateScore (cur : CurrentIpo) (row : HistoricalRow) : ℚ :=
  (if row.market_cap_category = marketCapCategory cur.implied_market_cap then (3 : ℚ) / 10 else 0)
    + (if row.sector = some cur.sector then (2 : ℚ) / 10 else 0)
    + (if row.industry = some cur.industry then (2 : ℚ) / 10 else 0)
    + (match row.revenue_growth_yoy with
       | some g =>
           if pyAbs (g - cur.revenue_growth_yoy) / pyMax (pyAbs cur.revenue_growth_yoy) 1
               < 1 / 5 then (3 : ℚ) / 10
           else 0
       | none => 0)

/-- Concrete company for the similarity-formula counterexample: zero revenue
growth (a falsy value in the source's guard). -/
def curC4 : CurrentIpo :=
  { implied_market_cap := 500000000, sector := "Technology", industry := "Software",
    revenue_growth_yoy := 0 }

/-- Concrete candidate row for the similarity-formula counterexample:
matches category, sector and industry, and has revenue growth 0.1, within
20% relative difference of the company's 0. -/
def rowC4 : HistoricalRow :=
  { ticker := "OLD", name := "Old Co", sector := some "Technology",
    industry := some "Software", revenue_growth_yoy := some (1 / 10),
    market_cap_category := some "small" }

/-- Concrete company for the trend-bucket counterexample: live trend data
available with score 55. -/
def curC7 : CurrentIpo :=
  { trend_score := 55, trend_data_available := true }

/-- Concrete performance predictions for the volatility-mapping check:
neutral predicted return, volatility exactly 0.5. -/
def predC6 : PerformancePredictions :=
  { predicted_first_day_return := 0, predicted_first_week_return := 0,
    predicted_first_month_return := 0, performance_volatility := 1 / 2,
    historical_sample_size := 0, risk_level := "Low" }

/-- Concrete company for the market-cap-copy check. -/
def curC9 : CurrentIpo :=
  { implied_market_cap := 500000000, sector := "Technology", industry := "Software" }

/-- Concrete peer row for the market-cap-copy check: its market cap at IPO
is known (5 B) and it matches on category, sector and industry. -/
def rowC9 : HistoricalRow :=
  { ticker := "OLD", name := "Old Co", sector := some "Technology",
    industry := some "Software", market_cap_at_ipo := some 5000000000,
    market_cap_category := some "small" }

/-- Concrete corpus for the market-cap-copy check: reachable store, one
candidate row, every other pool empty. -/
def corpusC9 : Corpus :=
  { available := true, candidates := [rowC9], growthPool := [], marginPool := [],
    marketCapPool := [], trendPool := [], trendSimilar := fun _ => [],
    sentimentPool := [], sentimentSimilar := fun _ => [], performanceRows := [] }

/-- Concrete company for the end-to-end fallback scenario: both external
sources report errors. -/
def curC2 : CurrentIpo :=
  { trend_error := true, news_error := true }

/-- Concrete corpus for the end-to-end fallback scenario: unreachable
store (every pool empty). -/
def corpusC2 : Corpus :=
  { available := false, candidates := [], growthPool := [], marginPool := [],
    marketCapPool := [], trendPool := [], trendSimilar := fun _ => [],
    sentimentPool := [], sentimentSimilar := fun _ => [], performanceRows := [] }

theorem pyMin_eq (a b : ℚ) : pyMin a b = min a b := by
  unfold pyMin
  split
  · exact (min_eq_left (by assumption)).symm
  · exact (min_eq_right (le_of_not_le (by assumption))).symm

theorem pyMax_eq (a b : ℚ) : pyMax a b = max a b := by
  unfold pyMax
  split
  · exact (max_eq_left (by assumption)).symm
  · exact (max_eq_right (le_of_not_le (by assumption))).symm

theorem pyAbs_eq (q : ℚ) : pyAbs q = |q| := by
  unfold pyAbs
  split
  · exact (abs_of_neg (by assumption)).symm
  · exact (abs_of_nonneg (le_of_not_lt (by assumption))).symm

theorem calculatePercentileRank_nonneg (v : ℚ) (D : List ℚ) :
    0 ≤ calculatePercentileRank v D := by
  unfold calculatePercentileRank
  split
  · norm_num
  · positivity

theorem calculatePercentileRank_le_100 (v : ℚ) (D : List ℚ) :
    calculatePercentileRank v D ≤ 100 := by
  unfold calculatePercentileRank
  split
  · norm_num
  · rename_i hne
    have hlen : (D.insertionSort (· ≤ ·)).length = D.length :=
      (List.perm_insertionSort _ D).length_eq
    have hpos : 0 < D.length := List.length_pos.2 (by
      intro h
      rw [h] at hne
      simp at hne)
    have hcount : ((D.insertionSort (· ≤ ·)).countP (fun x => decide (x < v)) : ℚ)
        ≤ ((D.insertionSort (· ≤ ·)).length : ℚ) :=
      Nat.cast_le.2 (List.countP_le_length _)
    have hqpos : (0 : ℚ) < ((D.insertionSort (· ≤ ·)).length : ℚ) := by
      rw [hlen]; exact_mod_cast hpos
    calc ((D.insertionSort (· ≤ ·)).countP (fun x => decide (x < v)) : ℚ)
          / ((D.insertionSort (· ≤ ·)).length : ℚ) * 100
        ≤ 1 * 100 := by
          have := (div_le_one hqpos).2 hcount
          nlinarith
      _ = 100 := one_mul 100

theorem calculatePercentileRank_lt_100 (x y : ℚ) (D : List ℚ)
    (hy : y ∈ D) (hxy : x ≤ y) : calculatePercentileRank x D < 100 := by
  unfold calculatePercentileRank
  split
  · rename_i he
    rw [List.isEmpty_iff] at he
    rw [he] at hy
    simp at hy
  · rename_i hne
    have hlen : (D.insertionSort (· ≤ ·)).length = D.length :=
      (List.perm_insertionSort _ D).length_eq
    have hpos : 0 < D.length := List.length_pos.2 (by
      intro h; rw [h] at hy; simp at hy)
    have hys : y ∈ D.insertionSort (· ≤ ·) :=
      ((List.perm_insertionSort _ D).mem_iff).2 hy
    have hcount : (D.insertionSort (· ≤ ·)).countP (fun z => decide (z < x))
        < (D.insertionSort (· ≤ ·)).length := by
      rcases lt_or_eq_of_le (List.countP_le_length (l := D.insertionSort (· ≤ ·))
        (fun z => decide (z < x))) with h | h
      · exact h
      · exfalso
        have := List.countP_eq_length.1 h y hys
        simp only [decide_eq_true_eq] at this
        exact absurd hxy (not_le.2 this)
    have hqpos : (0 : ℚ) < ((D.insertionSort (· ≤ ·)).length : ℚ) := by
      rw [hlen]; exact_mod_cast hpos
    have hlt : ((D.insertionSort (· ≤ ·)).countP (fun z => decide (z < x)) : ℚ)
        / ((D.insertionSort (· ≤ ·)).length : ℚ) < 1 :=
      (div_lt_one hqpos).2 (by exact_mod_cast hcount)
    nlinarith

theorem calculatePercentileRank_min_eq_zero (m : ℚ) (D : List ℚ)
    (hm : m ∈ D) (hmin : ∀ y ∈ D, m ≤ y) : calculatePercentileRank m D = 0 := by
  unfold calculatePercentileRank
  split
  · rename_i he
    rw [List.isEmpty_iff] at he
    rw [he] at hm
    simp at hm
  · have hzero : (D.insertionSort (· ≤ ·)).countP (fun z => decide (z < m)) = 0 := by
      rw [List.countP_eq_zero]
      intro a ha
      have haD : a ∈ D := ((List.perm_insertionSort _ D).mem_iff).1 ha
      simp only [decide_eq_true_eq]
      exact not_lt.2 (hmin a haD)
    simp only [hzero]
    norm_num

theorem pyRound_bounds (q : ℚ) (lo hi : ℤ) (hlo : (lo : ℚ) ≤ q) (hhi : q ≤ (hi : ℚ)) :
    lo ≤ pyRound q ∧ pyRound q ≤ hi := by
  have hfl : lo ≤ ⌊q⌋ := Int.le_floor.2 hlo
  have hfu : ⌊q⌋ ≤ hi := by
    have : ⌊q⌋ ≤ ⌊(hi : ℚ)⌋ := Int.floor_le_floor hhi
    simpa using this
  unfold pyRound
  constructor
  · split
    · exact hfl
    · split
      · omega
      · split <;> omega
  · split
    · exact hfu
    · rename_i h1
      have h1x : 1 / 2 ≤ q - (⌊q⌋ : ℚ) := not_lt.1 h1
      have hcast : (⌊q⌋ : ℚ) < (hi : ℚ) := by linarith
      have hstrict : ⌊q⌋ < hi := by exact_mod_cast hcast
      split
      · omega
      · split <;> omega

theorem round1_bounds (q : ℚ) (h35 : 35 ≤ q) (h100 : q ≤ 100) :
    35 ≤ round1 q ∧ round1 q ≤ 100 := by
  have h1 : ((350 : ℤ) : ℚ) ≤ q * 10 := by push_cast; linarith
  have h2 : q * 10 ≤ ((1000 : ℤ) : ℚ) := by push_cast; linarith
  obtain ⟨hl, hu⟩ := pyRound_bounds (q * 10) 350 1000 h1 h2
  have hlq : (350 : ℚ) ≤ (pyRound (q * 10) : ℚ) := by exact_mod_cast hl
  have huq : ((pyRound (q * 10)) : ℚ) ≤ 1000 := by exact_mod_cast hu
  unfold round1
  constructor
  · rw [le_div_iff₀ (by norm_num : (0 : ℚ) < 10)]
    linarith
  · rw [div_le_iff₀ (by norm_num : (0 : ℚ) < 10)]
    linarith

/-- **C3**: the percentile-rank function uses strict less-than over the
dataset, so the minimum of a non-empty dataset ranks at 0; any value `x`
bounded by some element of `D` (in particular any `x ≤ max D`, for `|D| > 1`
with distinct values) ranks in `[0, 100)`; and the empty dataset yields the
neutral percentile 50. -/
theorem percentileRank_spec_properties (v x m : ℚ) (D : List ℚ)
    (hm : m ∈ D) (hmin : ∀ y ∈ D, m ≤ y)
    (_hlen : 1 < D.length) (_hnd : D.Nodup)
    (y : ℚ) (hy : y ∈ D) (hxy : x ≤ y) :
    calculatePercentileRank m D = 0 ∧
    (0 ≤ calculatePercentileRank x D ∧ calculatePercentileRank x D < 100) ∧
    calculatePercentileRank v [] = 50 := by
  refine ⟨calculatePercentileRank_min_eq_zero m D hm hmin,
    ⟨calculatePercentileRank_nonneg x D, calculatePercentileRank_lt_100 x y D hy hxy⟩, ?_⟩
  unfold calculatePercentileRank
  norm_num

/-- Witness for `percentileRank_spec_properties` at `D = [1, 2]`,
`x = max D = 2`, `v` arbitrary. -/
theorem percentileRank_spec_properties_witness :
    calculatePercentileRank 1 [1, 2] = 0 ∧
    (0 ≤ calculatePercentileRank 2 [1, 2] ∧ calculatePercentileRank 2 [1, 2] < 100) ∧
    calculatePercentileRank 7 [] = 50 :=
  percentileRank_spec_properties 7 2 1 [1, 2] (by norm_num)
    (by
      intro y hy
      rcases List.mem_cons.1 hy with h | h
      · rw [h]
      · rw [List.mem_singleton.1 h]; norm_num)
    (by norm_num) (by norm_num) 2 (by norm_num) le_rfl

/-- The peer pool inside `_analyze_search_trends_historically` is never
empty: it is defaulted to the (defaulted, non-empty) historical pool. -/
theorem trend_sim0_ne_nil (d : ℚ) (histScores simScores : List ℚ) :
    (if simScores = [] then
        (if histScores = [] then [d] else histScores)
      else simScores) ≠ [] := by
  by_cases hs : simScores = [] <;> by_cases hh : histScores = [] <;> simp [hs, hh]

/-- **C8**: with `trend_data_available = False` the trend analysis always
reports `used_historical_fallback = True` with a `fallback_source` in
{"similar", "historical"}, and the recorded confidence is 0.75 for the
peer-median substitute and 0.60 for the full-historical substitute. -/
theorem trend_fallback_policy (o : Oracle) (cur : CurrentIpo)
    (histScores simScores : List ℚ) (hna : cur.trend_data_available = false) :
    (analyzeSearchTrends o cur histScores simScores).used_historical_fallback = true ∧
    ((analyzeSearchTrends o cur histScores simScores).fallback_source = "similar" ∨
      (analyzeSearchTrends o cur histScores simScores).fallback_source = "historical") ∧
    ((analyzeSearchTrends o cur histScores simScores).fallback_source = "similar" →
      (analyzeSearchTrends o cur histScores simScores).data_confidence = 3 / 4) ∧
    ((analyzeSearchTrends o cur histScores simScores).fallback_source = "historical" →
      (analyzeSearchTrends o cur histScores simScores).data_confidence = 3 / 5) := by
  have hsim := trend_sim0_ne_nil 50 histScores simScores
  unfold analyzeSearchTrends
  simp [hna, hsim]

/-- Witness for `trend_fallback_policy` at a concrete unavailable input. -/
theorem trend_fallback_policy_witness :
    (analyzeSearchTrends defaultOracle {} [] []).used_historical_fallback = true ∧
    ((analyzeSearchTrends defaultOracle {} [] []).fallback_source = "similar" ∨
      (analyzeSearchTrends defaultOracle {} [] []).fallback_source = "historical") ∧
    ((analyzeSearchTrends defaultOracle {} [] []).fallback_source = "similar" →
      (analyzeSearchTrends defaultOracle {} [] []).data_confidence = 3 / 4) ∧
    ((analyzeSearchTrends defaultOracle {} [] []).fallback_source = "historical" →
      (analyzeSearchTrends defaultOracle {} [] []).data_confidence = 3 / 5) :=
  trend_fallback_policy defaultOracle {} [] [] rfl

/-- **C10**: because the peer score pool is defaulted to the (non-empty,
defaulted) historical pool before the fallback branch runs, the
full-historical branch is unreachable: both the trend and the sentiment
analysis always report `fallback_source` "live" or "similar", never
"historical". -/
theorem fallback_source_never_historical (o : Oracle) (cur : CurrentIpo)
    (trendHist trendSim sentHist sentSim : List ℚ) :
    ((analyzeSearchTrends o cur trendHist trendSim).fallback_source = "live" ∨
      (analyzeSearchTrends o cur trendHist trendSim).fallback_source = "similar") ∧
    ((analyzeSentimentHistorically cur sentHist sentSim).fallback_source = "live" ∨
      (analyzeSentimentHistorically cur sentHist sentSim).fallback_source = "similar") := by
  have h1 := trend_sim0_ne_nil 50 trendHist trendSim
  have h2 := trend_sim0_ne_nil 0 sentHist sentSim
  unfold analyzeSearchTrends analyzeSentimentHistorically
  refine ⟨?_, ?_⟩ <;> simp [h1, h2] <;> split_ifs <;> simp

theorem pyMax_eq_left (a b : ℚ) (h : b ≤ a) : pyMax a b = a := by
  rw [pyMax_eq]
  exact max_eq_left h

/-- Lower bounds on the five component confidence multipliers: each is at
least its documented floor, in particular at least 0.35 > 0.25, so the 0.25
guard in the weight scaling never binds. -/
theorem confidences_ge (benchmarks : List HistoricalBenchmark)
    (search : TrendAnalysis) (sentiment : SentimentAnalysis)
    (perf : PerformancePredictions) (similar : List SimilarityMatch) :
    7 / 10 ≤ (componentConfidences benchmarks search sentiment perf similar).financial ∧
    7 / 20 ≤ (componentConfidences benchmarks search sentiment perf similar).trend ∧
    7 / 20 ≤ (componentConfidences benchmarks search sentiment perf similar).sentiment ∧
    3 / 5 ≤ (componentConfidences benchmarks search sentiment perf similar).performance ∧
    11 / 20 ≤ (componentConfidences benchmarks search sentiment perf similar).similarity := by
  unfold componentConfidences
  refine ⟨?_, ?_, ?_, ?_, ?_⟩
  · dsimp only
    split <;> norm_num
  · dsimp only
    rw [pyMax_eq]
    exact le_max_left _ _
  · dsimp only
    rw [pyMax_eq]
    exact le_max_left _ _
  · dsimp only
    rw [pyMin_eq]
    refine le_min (by norm_num) ?_
    have : (0 : ℚ) ≤ (8 / 100) * (perf.historical_sample_size : ℚ) := by positivity
    linarith
  · dsimp only
    rw [pyMin_eq]
    refine le_min (by norm_num) ?_
    have : (0 : ℚ) ≤ (5 / 100) * (similar.length : ℚ) := by positivity
    linarith

/-- With every confidence at least 0.25, the scaled weights are exactly the
base weights times the confidences, and their total is positive, so the
zero-total branch of `normalizedWeights` is dead code. -/
theorem totalScaledWeight_formula (c : ComponentConfidences)
    (hf : 1 / 4 ≤ c.financial) (ht : 1 / 4 ≤ c.trend) (hs : 1 / 4 ≤ c.sentiment)
    (hp : 1 / 4 ≤ c.performance) (hsi : 1 / 4 ≤ c.similarity) :
    totalScaledWeight c = (28 / 100) * c.financial + (18 / 100) * c.trend
      + (18 / 100) * c.sentiment + (20 / 100) * c.performance
      + (16 / 100) * c.similarity ∧
    0 < totalScaledWeight c := by
  have h1 : pyMax c.financial (1 / 4) = c.financial := pyMax_eq_left _ _ hf
  have h2 : pyMax c.trend (1 / 4) = c.trend := pyMax_eq_left _ _ ht
  have h3 : pyMax c.sentiment (1 / 4) = c.sentiment := pyMax_eq_left _ _ hs
  have h4 : pyMax c.performance (1 / 4) = c.performance := pyMax_eq_left _ _ hp
  have h5 : pyMax c.similarity (1 / 4) = c.similarity := pyMax_eq_left _ _ hsi
  have heq : totalScaledWeight c = (28 / 100) * c.financial + (18 / 100) * c.trend
      + (18 / 100) * c.sentiment + (20 / 100) * c.performance
      + (16 / 100) * c.similarity := by
    unfold totalScaledWeight scaledWeights baseWeights
    dsimp only
    rw [h1, h2, h3, h4, h5]
  refine ⟨heq, ?_⟩
  rw [heq]
  nlinarith

/-- **C5**: the weight allocation of the score composer always sums to 1
(exactly, over `ℚ`), every component confidence is nonzero, and each
normalized weight equals the base weight scaled by that component's
confidence multiplier and divided by the sum of the scaled weights (the
0.25 floor and the zero-total fallback to base weights never fire, since
every confidence is ≥ 0.35). -/
theorem weight_allocation_normalized (benchmarks : List HistoricalBenchmark)
    (search : TrendAnalysis) (sentiment : SentimentAnalysis)
    (perf : PerformancePredictions) (similar : List SimilarityMatch) :
    let c := componentConfidences benchmarks search sentiment perf similar
    let w := normalizedWeights c
    (0 < c.financial ∧ 0 < c.trend ∧ 0 < c.sentiment ∧ 0 < c.performance
      ∧ 0 < c.similarity) ∧
    w.financial + w.trend + w.sentiment + w.performance + w.similarity = 1 ∧
    totalScaledWeight c = (28 / 100) * c.financial + (18 / 100) * c.trend
      + (18 / 100) * c.sentiment + (20 / 100) * c.performance
      + (16 / 100) * c.similarity ∧
    w.financial = (28 / 100) * c.financial / totalScaledWeight c ∧
    w.trend = (18 / 100) * c.trend / totalScaledWeight c ∧
    w.sentiment = (18 / 100) * c.sentiment / totalScaledWeight c ∧
    w.performance = (20 / 100) * c.performance / totalScaledWeight c ∧
    w.similarity = (16 / 100) * c.similarity / totalScaledWeight c := by
  intro c w
  obtain ⟨hf, ht, hs, hp, hsi⟩ := confidences_ge benchmarks search sentiment perf similar
  obtain ⟨heq, hpos⟩ := totalScaledWeight_formula c
    (by linarith) (by linarith) (by linarith) (by linarith) (by linarith)
  have hne : totalScaledWeight c ≠ 0 := ne_of_gt hpos
  have hw : w = { financial := (scaledWeights c).financial / totalScaledWeight c
                  trend := (scaledWeights c).trend / totalScaledWeight c
                  sentiment := (scaledWeights c).sentiment / totalScaledWeight c
                  performance := (scaledWeights c).performance / totalScaledWeight c
                  similarity := (scaledWeights c).similarity / totalScaledWeight c } := by
    show normalizedWeights c = _
    unfold normalizedWeights
    rw [if_neg hne]
  have hsum : (scaledWeights c).financial + (scaledWeights c).trend
      + (scaledWeights c).sentiment + (scaledWeights c).performance
      + (scaledWeights c).similarity = totalScaledWeight c := rfl
  have h1 : pyMax c.financial (1 / 4) = c.financial := pyMax_eq_left _ _ (by linarith)
  have h2 : pyMax c.trend (1 / 4) = c.trend := pyMax_eq_left _ _ (by linarith)
  have h3 : pyMax c.sentiment (1 / 4) = c.sentiment := pyMax_eq_left _ _ (by linarith)
  have h4 : pyMax c.performance (1 / 4) = c.performance := pyMax_eq_left _ _ (by linarith)
  have h5 : pyMax c.similarity (1 / 4) = c.similarity := pyMax_eq_left _ _ (by linarith)
  refine ⟨⟨by linarith, by linarith, by linarith, by linarith, by linarith⟩, ?_, heq,
    ?_, ?_, ?_, ?_, ?_⟩
  · rw [hw]
    dsimp only
    rw [div_add_div_same, div_add_div_same, div_add_div_same, div_add_div_same, hsum]
    exact div_self hne
  · rw [hw]
    dsimp only
    unfold scaledWeights baseWeights
    dsimp only
    rw [h1]
  · rw [hw]
    dsimp only
    unfold scaledWeights baseWeights
    dsimp only
    rw [h2]
  · rw [hw]
    dsimp only
    unfold scaledWeights baseWeights
    dsimp only
    rw [h3]
  · rw [hw]
    dsimp only
    unfold scaledWeights baseWeights
    dsimp only
    rw [h4]
  · rw [hw]
    dsimp only
    unfold scaledWeights baseWeights
    dsimp only
    rw [h5]

/-- **C1**: for every composer input, the published hype score lies in
[35, 100], and it is exactly the calibration `boosted = base * 1.1 + 12.5`
of the confidence-weighted base score, clamped to [35, 100] (and rounded to
one decimal, which preserves the bounds). -/
theorem hypeScore_bounded_and_calibrated (o : Oracle) (cur : CurrentIpo)
    (similar : List SimilarityMatch) (benchmarks : List HistoricalBenchmark)
    (search : TrendAnalysis) (sentiment : SentimentAnalysis)
    (perf : PerformancePredictions) :
    let r := generateDataBackedHypeScore o cur similar benchmarks search sentiment perf
    (35 ≤ r.hype_score ∧ r.hype_score ≤ 100) ∧
    r.hype_score = round1 (pyMax 35 (pyMin 100
      (baseHypeScoreOf benchmarks search sentiment perf similar * (11 / 10) + 25 / 2))) := by
  intro r
  have hr : r.hype_score = round1 (pyMax 35 (pyMin 100
      (baseHypeScoreOf benchmarks search sentiment perf similar * (11 / 10) + 25 / 2))) := rfl
  refine ⟨?_, hr⟩
  rw [hr]
  have h1 : (35 : ℚ) ≤ pyMax 35 (pyMin 100
      (baseHypeScoreOf benchmarks search sentiment perf similar * (11 / 10) + 25 / 2)) := by
    rw [pyMax_eq]
    exact le_max_left _ _
  have h2 : pyMax 35 (pyMin 100
      (baseHypeScoreOf benchmarks search sentiment perf similar * (11 / 10) + 25 / 2))
      ≤ 100 := by
    rw [pyMax_eq, pyMin_eq]
    exact max_le (by norm_num) (min_le_left _ _)
  exact round1_bounds _ h1 h2

/-- **C4 (amended)**: the similarity matcher returns at most 10 matches,
sorted descending by similarity score, each with cumulative score ≥ 0.30,
and each returned match is built from some candidate row with score equal to
the sum of the fixed factor weights — where the 0.30 revenue-growth weight
is awarded only if both the candidate's and the current company's revenue
growth are present and nonzero, in addition to the relative-difference
test. -/
theorem findSimilar_amended_properties (cur : CurrentIpo) (rows : List HistoricalRow) :
    (findSimilarHistoricalIpos cur rows).length ≤ 10 ∧
    List.Sorted simGE (findSimilarHistoricalIpos cur rows) ∧
    ∀ m ∈ findSimilarHistoricalIpos cur rows,
      (3 : ℚ) / 10 ≤ m.similarity_score ∧
      ∃ row ∈ rows, m = mkMatch cur row ∧
        m.similarity_score =
          (if row.market_cap_category = marketCapCategory cur.implied_market_cap
            then (3 : ℚ) / 10 else 0)
          + (if row.sector = some cur.sector then (2 : ℚ) / 10 else 0)
          + (if row.industry = some cur.industry then (2 : ℚ) / 10 else 0)
          + (if revenueGrowthFactorMatches cur row then (3 : ℚ) / 10 else 0) := by
  refine ⟨?_, ?_, ?_⟩
  · unfold findSimilarHistoricalIpos
    rw [List.length_take]
    exact min_le_left _ _
  · unfold findSimilarHistoricalIpos
    exact (List.sorted_insertionSort simGE _).sublist (List.take_sublist _ _)
  · intro m hm
    unfold findSimilarHistoricalIpos at hm
    have hm2 : m ∈ (((rows.map (mkMatch cur)).filter
        (fun x => decide ((3 : ℚ) / 10 ≤ x.similarity_score))).insertionSort simGE) :=
      List.take_subset _ _ hm
    have hm3 : m ∈ (rows.map (mkMatch cur)).filter
        (fun x => decide ((3 : ℚ) / 10 ≤ x.similarity_score)) :=
      ((List.perm_insertionSort simGE _).mem_iff).1 hm2
    obtain ⟨hmem, hpred⟩ := List.mem_filter.1 hm3
    obtain ⟨row, hrow, hmk⟩ := List.mem_map.1 hmem
    refine ⟨by simpa using hpred, row, hrow, hmk.symm, ?_⟩
    rw [← hmk]
    rfl

/-- **C4 (counterexample to the claim as stated)**: for a company with zero
revenue growth and a candidate matching on category, sector and industry
with revenue growth 0.1, the matcher returns the candidate with cumulative
score 0.7, while the claim's factor sum — which awards 0.30 whenever
`|Δ| / max(|current|, 1) < 0.2` — gives 1.0: the source additionally
requires both growth values to be non-null and nonzero. -/
theorem similarity_score_formula_counterexample :
    ((findSimilarHistoricalIpos curC4 [rowC4]).map (·.similarity_score)) = [7 / 10] ∧
    specClaimCandidateScore curC4 rowC4 = 1 ∧ ((7 : ℚ) / 10 ≠ 1) := by
  refine ⟨?_, ?_, by norm_num⟩
  · norm_num [findSimilarHistoricalIpos, mkMatch, candidateScore, candidateFactors,
      revenueGrowthFactorMatches, marketCapCategory, curC4, rowC4,
      List.insertionSort, List.orderedInsert, List.filter]
  · norm_num [specClaimCandidateScore, marketCapCategory, pyAbs, pyMax, curC4, rowC4]

/-- **C6**: at volatility 0.5 the source computes the multiplier
`1.1 - 0.5 * 0.8 / 0.5 = 0.3` — not the 0.7 its own inline comment
("Map volatility [0, 0.5+] to multiplier [1.1, 0.7]") and the specification
describe — so a neutral predicted return scores 15 instead of 35. -/
theorem performance_score_volatility_divergence :
    calculatePerformanceScore predC6 = 15 ∧
    (50 : ℚ) * (7 / 10) = 35 ∧ ((15 : ℚ) ≠ 35) := by
  refine ⟨?_, by norm_num, by norm_num⟩
  norm_num [calculatePerformanceScore, predC6, pyMin, pyMax]

/-- **C9**: the `SimilarityMatch` constructor call never passes
`market_cap`, although the SQL query selects `market_cap_at_ipo` and the
benchmark calculator reads the copies: the returned match for a peer with a
known 5 B market cap carries `none`, and the peer market-cap statistics
(median 0, percentile 50) do not reflect the peer's value. -/
theorem market_cap_never_copied :
    ((findSimilarHistoricalIpos curC9 [rowC9]).map (·.market_cap)) = [none] ∧
    rowC9.market_cap_at_ipo = some 5000000000 ∧
    ((calculateHistoricalBenchmarks defaultOracle curC9
        (findSimilarHistoricalIpos curC9 [rowC9]) corpusC9).map (·.similar_ipos_median))
      = [0, 0, 0] ∧
    ((calculateHistoricalBenchmarks defaultOracle curC9
        (findSimilarHistoricalIpos curC9 [rowC9]) corpusC9).map (·.similar_ipos_percentile))
      = [50, 50, 50] := by
  refine ⟨?_, rfl, ?_, ?_⟩ <;>
    norm_num [findSimilarHistoricalIpos, mkMatch, candidateScore, candidateFactors,
      revenueGrowthFactorMatches, marketCapCategory, calculateHistoricalBenchmarks,
      mkBenchmark, medianQ, meanQ, calculatePercentileRank, stdevQ, sampleVariance,
      defaultOracle, corpusC9, curC9, rowC9, List.insertionSort, List.orderedInsert,
      List.filter]

theorem trendStrengthMultiplier_pos (s : String) : 0 < trendStrengthMultiplier s := by
  unfold trendStrengthMultiplier
  split_ifs <;> norm_num

/-- The peer-pool percentile published as `effective_percentile` is the
percentile of the effective trend score in the (defaulted) peer pool. -/
theorem analyzeSearchTrends_effective_percentile (o : Oracle) (cur : CurrentIpo)
    (histScores simScores : List ℚ) :
    (analyzeSearchTrends o cur histScores simScores).effective_percentile
      = calculatePercentileRank
          (analyzeSearchTrends o cur histScores simScores).effective_trend_score
          (if simScores.isEmpty then
            (if histScores.isEmpty then [(50 : ℚ)] else histScores)
          else simScores) := rfl

/-- The strength bucket published by the trend analysis is computed from the
full historical-pool percentile. -/
theorem analyzeSearchTrends_strength (o : Oracle) (cur : CurrentIpo)
    (histScores simScores : List ℚ) :
    (analyzeSearchTrends o cur histScores simScores).trend_strength
      = trendStrengthOf (analyzeSearchTrends o cur histScores simScores).historical_percentile :=
  rfl

/-- **C7 (amended)**: the trend sub-score equals
`base * (0.6 + 0.4 * clamp(confidence))` floored at 35, with
`base = min(100, effective_percentile * strength_multiplier)` — but the
strength bucket (Exceptional/Strong/Moderate/Weak) is selected by the FULL
historical-pool percentile of the effective trend score, not by the
peer-pool percentile; the peer-pool percentile enters only as the
`effective_percentile` factor of the base. -/
theorem trendScore_amended_formula (o : Oracle) (cur : CurrentIpo)
    (histScores simScores : List ℚ) :
    calculateTrendScore (analyzeSearchTrends o cur histScores simScores)
      = pyMax 35
          (pyMin 100 ((analyzeSearchTrends o cur histScores simScores).effective_percentile
              * trendStrengthMultiplier
                (trendStrengthOf
                  (analyzeSearchTrends o cur histScores simScores).historical_percentile))
            * (6 / 10 + (4 / 10) * pyMax 0
                (pyMin 1 (analyzeSearchTrends o cur histScores simScores).data_confidence))) := by
  have hp0 : 0 ≤ (analyzeSearchTrends o cur histScores simScores).effective_percentile := by
    rw [analyzeSearchTrends_effective_percentile]
    exact calculatePercentileRank_nonneg _ _
  have hmpos := trendStrengthMultiplier_pos
    (trendStrengthOf (analyzeSearchTrends o cur histScores simScores).historical_percentile)
  have hbase0 : 0 ≤ pyMin 100
      ((analyzeSearchTrends o cur histScores simScores).effective_percentile
        * trendStrengthMultiplier
          (trendStrengthOf
            (analyzeSearchTrends o cur histScores simScores).historical_percentile)) := by
    rw [pyMin_eq]
    exact le_min (by norm_num) (mul_nonneg hp0 (le_of_lt hmpos))
  have hbase100 : pyMin 100
      ((analyzeSearchTrends o cur histScores simScores).effective_percentile
        * trendStrengthMultiplier
          (trendStrengthOf
            (analyzeSearchTrends o cur histScores simScores).historical_percentile))
      ≤ 100 := by
    rw [pyMin_eq]
    exact min_le_left _ _
  have hcm0 : (0 : ℚ) ≤ pyMax 0
      (pyMin 1 (analyzeSearchTrends o cur histScores simScores).data_confidence) := by
    rw [pyMax_eq]
    exact le_max_left _ _
  have hcm1 : pyMax 0
      (pyMin 1 (analyzeSearchTrends o cur histScores simScores).data_confidence) ≤ 1 := by
    rw [pyMax_eq, pyMin_eq]
    exact max_le (by norm_num) (min_le_left _ _)
  have hs100 : pyMin 100
      ((analyzeSearchTrends o cur histScores simScores).effective_percentile
        * trendStrengthMultiplier
          (trendStrengthOf
            (analyzeSearchTrends o cur histScores simScores).historical_percentile))
      * (6 / 10 + (4 / 10) * pyMax 0
          (pyMin 1 (analyzeSearchTrends o cur histScores simScores).data_confidence))
      ≤ 100 := by
    nlinarith
  unfold calculateTrendScore
  rw [analyzeSearchTrends_strength]
  dsimp only
  rw [pyMin_eq 100 (pyMin 100 _ * _), min_eq_right hs100]

/-- **C7 (counterexample to the claim as stated)**: with live trend score 55,
historical pool [60, 70] and peer pool [10, 20], the peer-pool
(`effective`) percentile is 100 but the historical percentile is 0, so the
source buckets the strength as "Weak" (×0.8) and scores
`min(100, 100*0.8) * 1.0 = 80`; had the bucket been selected by the
peer-pool percentile as the claim states (100 ≥ 90 → Exceptional ×1.2), the
score would be `max(35, min(100, 100*1.2) * 1.0) = 100`. -/
theorem trend_bucket_counterexample :
    (analyzeSearchTrends defaultOracle curC7 [60, 70] [10, 20]).effective_percentile = 100 ∧
    (analyzeSearchTrends defaultOracle curC7 [60, 70] [10, 20]).historical_percentile = 0 ∧
    (analyzeSearchTrends defaultOracle curC7 [60, 70] [10, 20]).trend_strength = "Weak" ∧
    (analyzeSearchTrends defaultOracle curC7 [60, 70] [10, 20]).data_confidence = 1 ∧
    calculateTrendScore (analyzeSearchTrends defaultOracle curC7 [60, 70] [10, 20]) = 80 ∧
    pyMax 35 (pyMin 100 ((100 : ℚ) * (12 / 10)) * (6 / 10 + (4 / 10) * pyMax 0 (pyMin 1 1)))
      = 100 ∧
    ((80 : ℚ) ≠ 100) := by
  have hne1 : ¬(("Weak" : String) = "Exceptional") := by decide
  have hne2 : ¬(("Weak" : String) = "Strong") := by decide
  have hne3 : ¬(("Weak" : String) = "Moderate") := by decide
  refine ⟨?_, ?_, ?_, ?_, ?_, ?_, by norm_num⟩ <;>
    norm_num [analyzeSearchTrends, calculateTrendScore, calculatePercentileRank,
      safeMedian, medianQ, trendStrengthOf, trendImpactOf, trendStrengthMultiplier,
      stdevQ, sampleVariance, meanQ, defaultOracle, curC7, pyMin, pyMax,
      hne1, hne2, hne3, List.insertionSort, List.orderedInsert]

/-- **C2**: the entry point is total (it returns a payload for every input;
the embedding catches the pipeline's only reachable exception, the
`StatisticsError` of the unguarded medians, at the outer boundary), and in
the degraded scenario — empty corpus, both external sources reporting
errors — it returns exactly the fixed fallback payload: hype score 50.0,
all sub-scores 50.0 except similarity 30.0, recommendation "Hold", risk
"High". -/
theorem analyze_empty_corpus_fallback (o : Oracle) (cur : CurrentIpo) (c : Corpus)
    (hcand : c.candidates = []) (hperf : c.performanceRows = [])
    (_hterr : cur.trend_error = true) (_hnerr : cur.news_error = true) :
    analyzeIpoHypeScore o cur c = fallbackHypeScore ∧
    fallbackHypeScore.hype_score = 50 ∧
    fallbackHypeScore.component_scores =
      { financial_score := 50, trend_score := 50, sentiment_score := 50,
        performance_score := 50, similarity_score := 30 } ∧
    fallbackHypeScore.recommendation = "Hold" ∧
    fallbackHypeScore.risk_level = "High" := by
  refine ⟨?_, rfl, rfl, rfl, rfl⟩
  unfold analyzeIpoHypeScore
  rw [hcand, hperf]
  have hsim : findSimilarHistoricalIpos cur (if c.available then [] else []) = [] := by
    cases c.available <;> simp [findSimilarHistoricalIpos]
  rw [hsim]
  simp [predictPerformance, medianOpt]

/-- Witness for `analyze_empty_corpus_fallback` at a concrete company and an
unreachable corpus. -/
theorem analyze_empty_corpus_fallback_witness :
    analyzeIpoHypeScore defaultOracle curC2 corpusC2 = fallbackHypeScore ∧
    fallbackHypeScore.hype_score = 50 ∧
    fallbackHypeScore.component_scores =
      { financial_score := 50, trend_score := 50, sentiment_score := 50,
        performance_score := 50, similarity_score := 30 } ∧
    fallbackHypeScore.recommendation = "Hold" ∧
    fallbackHypeScore.risk_level = "High" :=
  analyze_empty_corpus_fallback defaultOracle curC2 corpusC2 rfl rfl rfl rfl
